import Mathlib

/-!
Verification of the QRIS checksum microservice (`qris-service.py`).

The development embeds the semantic core of the service: the
CRC-16/CCITT checksum function `crc16ccitt` (unbounded-integer
accumulator, masked to 16 bits once, at return, exactly as the Python
source), a per-step-masked reference formulation `crc16Ref` of
CRC-16/CCITT-FALSE, and the two request handlers `generate_qris` and
`validate_qris` modelled on their parsed inputs (the JSON/HTTP transport
is out of scope).
-/

set_option maxRecDepth 10000

/-- One pass of the inner 8-iteration loop of `crc16ccitt`
(`if (crc & 0x8000) != 0: crc = (crc << 1) ^ 0x1021 else: crc <<= 1`),
on an unbounded natural-number accumulator, exactly as in the source. -/
def crcStep (crc : Nat) : Nat :=
  if crc &&& 0x8000 ≠ 0 then (crc <<< 1) ^^^ 0x1021 else crc <<< 1

/-- n successive applications of `crcStep` (the `for _ in range(8)` loop). -/
def crcRounds : Nat → Nat → Nat
  | 0, crc => crc
  | n + 1, crc => crcRounds n (crcStep crc)

/-- Processing of one input character: `crc ^= ord(char) << 8` followed by
the eight inner iterations, with no masking anywhere. -/
def crcChar (crc c : Nat) : Nat :=
  crcRounds 8 (crc ^^^ (c <<< 8))

/-- `crc16ccitt` from `qris-service.py` lines 16-26: the accumulator starts
at 0xFFFF, is never masked inside the loops (Python integers are unbounded),
and is masked to 16 bits once, at return (`return crc & 0xFFFF`). Characters
enter through their code point (`ord`). -/
def crc16ccitt (data : String) : Nat :=
  (data.data.foldl (fun crc ch => crcChar crc ch.toNat) 0xFFFF) &&& 0xFFFF

/-- Reference inner step of CRC-16/CCITT-FALSE as the spec words it: the same
0x8000-test/shift/XOR-0x1021 as `crcStep`, but the accumulator is masked to
16 bits after every single shift/XOR. -/
def crcStepRef (crc : Nat) : Nat :=
  (if crc &&& 0x8000 ≠ 0 then (crc <<< 1) ^^^ 0x1021 else crc <<< 1) &&& 0xFFFF

/-- Reference: n masked inner iterations. -/
def crcRoundsRef : Nat → Nat → Nat
  | 0, crc => crc
  | n + 1, crc => crcRoundsRef n (crcStepRef crc)

/-- Reference: one character step, masked right after the code-point XOR as
well, so the accumulator is 16-bit at every point. -/
def crcCharRef (crc c : Nat) : Nat :=
  crcRoundsRef 8 ((crc ^^^ (c <<< 8)) &&& 0xFFFF)

/-- Reference CRC-16/CCITT-FALSE: accumulator initialized to 0xFFFF, each
code point XORed in shifted left 8, eight masked inner iterations per
character, masked result. -/
def crc16Ref (data : String) : Nat :=
  (data.data.foldl (fun crc ch => crcCharRef crc ch.toNat) 0xFFFF) &&& 0xFFFF

/-- Python `s.zfill(width)` on the sign-free strings this service feeds it:
pad on the left with '0' up to `width` characters; never truncate. -/
def zfill (width : Nat) (s : String) : String :=
  if width ≤ s.length then s else String.mk (List.replicate (width - s.length) '0') ++ s

/-- Uppercase hexadecimal digit (meaningful for n < 16). -/
def hexDigitU (n : Nat) : Char :=
  if n < 10 then Char.ofNat (48 + n) else Char.ofNat (55 + n)

/-- Python `format(n, '04X')` for n < 0x10000; every call site in the service
passes a value already masked to 16 bits. -/
def format04X (n : Nat) : String :=
  String.mk [hexDigitU (n / 4096 % 16), hexDigitU (n / 256 % 16),
             hexDigitU (n / 16 % 16), hexDigitU (n % 16)]

/-- Lowercase hexadecimal digit (meaningful for n < 16). -/
def hexDigitL (n : Nat) : Char :=
  if n < 10 then Char.ofNat (48 + n) else Char.ofNat (87 + n)

/-- Lowercase 4-hex-digit rendering (`format(n, '04x')`), used to state the
case-insensitivity property about externally supplied checksum tails. -/
def format04L (n : Nat) : String :=
  String.mk [hexDigitL (n / 4096 % 16), hexDigitL (n / 256 % 16),
             hexDigitL (n / 16 % 16), hexDigitL (n % 16)]

/-- Python `s.upper()` on the ASCII strings this service handles. -/
def strUpper (s : String) : String :=
  String.mk (s.data.map Char.toUpper)

/-- Python `s[-n:]`: the last n characters (the whole string when it is
shorter than n, as in Python). -/
def lastN (s : String) (n : Nat) : String :=
  String.mk (s.data.drop (s.data.length - n))

/-- Python `s[:-n]`: everything except the last n characters (empty when
len(s) ≤ n, as in Python). -/
def dropLastN (s : String) (n : Nat) : String :=
  String.mk (s.data.take (s.data.length - n))

/-- Success payload of the /generate-qris handler (JSON envelope dropped). -/
structure GenerateResponse where
  qris_string : String
  amount : Int
  crc : String
  success : Bool

/-- Response payload of the /validate-qris handler. -/
structure ValidateResponse where
  valid : Bool
  provided_crc : String
  calculated_crc : String

/-- The /generate-qris handler (`qris-service.py` lines 51-89) on its parsed
inputs: a missing or empty `base_string` is the empty string; the amount is
taken as an integer, so Python's `int(amount)` coercion is the identity. The
guards mirror `if not base_string` and
`if not amount or not isinstance(amount, (int, float)) or amount < 1`. -/
def generate_qris (base_string : String) (amount : Int) : Except String GenerateResponse :=
  if base_string = "" then .error "base_string is required"
  else if amount = 0 ∨ amount < 1 then .error "Invalid amount"
  else
    let amount_str := toString amount
    let amount_length := zfill 2 (toString amount_str.length)
    let amount_tag := "54" ++ amount_length ++ amount_str
    let string_for_crc := base_string ++ amount_tag ++ "6304"
    let crc_hex := format04X (crc16ccitt string_for_crc)
    .ok { qris_string := string_for_crc ++ crc_hex, amount := amount,
          crc := crc_hex, success := true }

/-- The /validate-qris handler (lines 100-121) on its parsed input. The
response echoes `provided_crc` exactly as sliced from the input; `.upper()`
is applied only inside the validity comparison. -/
def validate_qris (qris_string : String) : Except String ValidateResponse :=
  if qris_string = "" ∨ qris_string.length < 4 then .error "Invalid QRIS string"
  else
    let provided_crc := lastN qris_string 4
    let qris_without_crc := dropLastN qris_string 4
    let calculated_crc_hex := format04X (crc16ccitt qris_without_crc)
    .ok { valid := decide (strUpper provided_crc = calculated_crc_hex),
          provided_crc := provided_crc, calculated_crc := calculated_crc_hex }

/-- The pre-checksum string built by the generator:
base + tag 54 + 2-digit zero-filled length + amount digits + "6304". -/
def stringForCrc (base_string : String) (amount : Int) : String :=
  base_string ++ ("54" ++ zfill 2 (toString (toString amount).length) ++ toString amount) ++ "6304"

/-- Masking with 0xFFFF is reduction modulo 2^16. -/
theorem and_ffff_eq_mod (n : Nat) : n &&& 0xFFFF = n % 65536 := by
  have h := Nat.and_pow_two_sub_one_eq_mod n 16
  norm_num at h
  exact h

/-- The 0x8000 high-bit test only looks at the low 16 bits. -/
theorem and_8000_mod (x : Nat) : (x % 65536) &&& 0x8000 = x &&& 0x8000 := by
  rw [← and_ffff_eq_mod, Nat.and_assoc]
  have h : (0xFFFF &&& 0x8000 : Nat) = 0x8000 := by decide
  rw [h]

/-- XOR is compatible with reduction modulo 2^16. -/
theorem xor_mod_congr {x y z w : Nat} (hx : x % 65536 = y % 65536)
    (hz : z % 65536 = w % 65536) : (x ^^^ z) % 65536 = (y ^^^ w) % 65536 := by
  rw [← and_ffff_eq_mod (x ^^^ z), ← and_ffff_eq_mod (y ^^^ w),
      Nat.and_xor_distrib_right, Nat.and_xor_distrib_right,
      and_ffff_eq_mod x, and_ffff_eq_mod z, and_ffff_eq_mod y, and_ffff_eq_mod w, hx, hz]

/-- Left shift by one is compatible with reduction modulo 2^16. -/
theorem shiftLeft_one_mod_congr {x y : Nat} (h : x % 65536 = y % 65536) :
    (x <<< 1) % 65536 = (y <<< 1) % 65536 := by
  rw [Nat.shiftLeft_eq, Nat.shiftLeft_eq, pow_one]
  omega

/-- The unmasked inner step is compatible with reduction modulo 2^16. -/
theorem crcStep_mod_congr {x y : Nat} (h : x % 65536 = y % 65536) :
    crcStep x % 65536 = crcStep y % 65536 := by
  unfold crcStep
  have hc : x &&& 0x8000 = y &&& 0x8000 := by
    rw [← and_8000_mod x, h, and_8000_mod y]
  by_cases hb : y &&& 0x8000 ≠ 0
  · have hbx : x &&& 0x8000 ≠ 0 := by rw [hc]; exact hb
    rw [if_pos hbx, if_pos hb]
    exact xor_mod_congr (shiftLeft_one_mod_congr h) rfl
  · have hbx : ¬x &&& 0x8000 ≠ 0 := by rw [hc]; exact hb
    rw [if_neg hbx, if_neg hb]
    exact shiftLeft_one_mod_congr h

/-- The masked reference step is the unmasked step reduced modulo 2^16. -/
theorem crcStepRef_eq_mod (y : Nat) : crcStepRef y = crcStep y % 65536 := by
  unfold crcStepRef crcStep
  rw [and_ffff_eq_mod]

/-- n unmasked rounds agree with n masked reference rounds modulo 2^16. -/
theorem crcRounds_congr_ref (n : Nat) : ∀ {x y : Nat}, x % 65536 = y % 65536 →
    crcRounds n x % 65536 = crcRoundsRef n y % 65536 := by
  induction n with
  | zero => intro x y h; exact h
  | succ n ih =>
    intro x y h
    show crcRounds n (crcStep x) % 65536 = crcRoundsRef n (crcStepRef y) % 65536
    apply ih
    have h2 : crcStep x % 65536 = crcStep y % 65536 := crcStep_mod_congr h
    rw [crcStepRef_eq_mod]
    omega

/-- n unmasked rounds are compatible with reduction modulo 2^16. -/
theorem crcRounds_congr (n : Nat) : ∀ {x y : Nat}, x % 65536 = y % 65536 →
    crcRounds n x % 65536 = crcRounds n y % 65536 := by
  induction n with
  | zero => intro x y h; exact h
  | succ n ih =>
    intro x y h
    exact ih (crcStep_mod_congr h)

/-- One character step is compatible with reduction modulo 2^16 and depends
on the code point only modulo 256. -/
theorem crcChar_congr {x y c d : Nat} (h : x % 65536 = y % 65536)
    (hc : c % 256 = d % 256) : crcChar x c % 65536 = crcChar y d % 65536 := by
  apply crcRounds_congr
  apply xor_mod_congr h
  rw [Nat.shiftLeft_eq, Nat.shiftLeft_eq]
  show c * 256 % 65536 = d * 256 % 65536
  omega

/-- One unmasked character step agrees with the masked reference character
step modulo 2^16. -/
theorem crcCharRef_eq {x y c : Nat} (h : x % 65536 = y % 65536) :
    crcChar x c % 65536 = crcCharRef y c % 65536 := by
  apply crcRounds_congr_ref
  rw [and_ffff_eq_mod]
  have h2 : (x ^^^ c <<< 8) % 65536 = (y ^^^ c <<< 8) % 65536 := xor_mod_congr h rfl
  omega

/-- Folding the unmasked implementation over the characters agrees with
folding the masked reference, modulo 2^16. -/
theorem foldl_crcChar_congr_ref (cs : List Char) : ∀ {x y : Nat}, x % 65536 = y % 65536 →
    (cs.foldl (fun crc ch => crcChar crc ch.toNat) x) % 65536
      = (cs.foldl (fun crc ch => crcCharRef crc ch.toNat) y) % 65536 := by
  induction cs with
  | nil => intro x y h; exact h
  | cons c cs ih =>
    intro x y h
    exact ih (crcCharRef_eq h)

/-- Code points below 55296 survive the Char round trip. -/
theorem char_ofNat_toNat (n : Nat) (h : n < 55296) : (Char.ofNat n).toNat = n := by
  unfold Char.ofNat
  rw [dif_pos (Or.inl h)]
  rfl

/-- Folding the implementation over characters reduced modulo 256 gives the
same accumulator modulo 2^16. -/
theorem foldl_crcChar_map_mod (cs : List Char) : ∀ {x y : Nat}, x % 65536 = y % 65536 →
    (cs.foldl (fun crc ch => crcChar crc ch.toNat) x) % 65536
      = ((cs.map (fun c => Char.ofNat (c.toNat % 256))).foldl
          (fun crc ch => crcChar crc ch.toNat) y) % 65536 := by
  induction cs with
  | nil => intro x y h; exact h
  | cons c cs ih =>
    intro x y h
    simp only [List.map_cons, List.foldl_cons]
    apply ih
    apply crcChar_congr h
    rw [char_ofNat_toNat _ (by omega)]
    omega

/-- Unfolding of the generator past its two guards. -/
theorem generate_qris_eq (base_string : String) (amount : Int)
    (hb : base_string ≠ "") (ha : 1 ≤ amount) :
    generate_qris base_string amount =
      .ok { qris_string := stringForCrc base_string amount
              ++ format04X (crc16ccitt (stringForCrc base_string amount)),
            amount := amount,
            crc := format04X (crc16ccitt (stringForCrc base_string amount)),
            success := true } := by
  have h2 : ¬(amount = 0 ∨ amount < 1) := by omega
  unfold generate_qris
  rw [if_neg hb, if_neg h2]
  rfl

/-- Unfolding of the validator past its guard. -/
theorem validate_qris_eq (s : String) (h : 4 ≤ s.length) :
    validate_qris s =
      .ok { valid := decide (strUpper (lastN s 4) = format04X (crc16ccitt (dropLastN s 4))),
            provided_crc := lastN s 4,
            calculated_crc := format04X (crc16ccitt (dropLastN s 4)) } := by
  have h1 : ¬(s = "" ∨ s.length < 4) := by
    push_neg
    refine ⟨?_, by omega⟩
    intro he
    rw [he] at h
    exact absurd h (by decide)
  unfold validate_qris
  rw [if_neg h1]

/-- Taking the last 4 characters after appending a 4-character string yields
that string. -/
theorem lastN_append (a b : String) (hb : b.length = 4) : lastN (a ++ b) 4 = b := by
  unfold lastN
  have hb' : b.data.length = 4 := hb
  rw [String.data_append, List.length_append, hb', Nat.add_sub_cancel, List.drop_left]

/-- Dropping the last 4 characters after appending a 4-character string
recovers the left part. -/
theorem dropLastN_append (a b : String) (hb : b.length = 4) : dropLastN (a ++ b) 4 = a := by
  unfold dropLastN
  have hb' : b.data.length = 4 := hb
  rw [String.data_append, List.length_append, hb', Nat.add_sub_cancel, List.take_left]

/-- On a 4-character string, the last-4 slice is the whole string. -/
theorem lastN_of_length_four (s : String) (h : s.length = 4) : lastN s 4 = s := by
  unfold lastN
  have h' : s.data.length = 4 := h
  rw [h']
  rfl

/-- On a 4-character string, dropping the last 4 characters leaves the empty
string. -/
theorem dropLastN_of_length_four (s : String) (h : s.length = 4) : dropLastN s 4 = "" := by
  unfold dropLastN
  have h' : s.data.length = 4 := h
  rw [h']
  rfl

/-- Uppercasing fixes every uppercase hexadecimal digit. -/
theorem toUpper_hexDigitU : ∀ n < 16, (hexDigitU n).toUpper = hexDigitU n := by decide

/-- Uppercasing sends every lowercase hexadecimal digit to its uppercase
counterpart. -/
theorem toUpper_hexDigitL : ∀ n < 16, (hexDigitL n).toUpper = hexDigitU n := by decide

/-- Uppercasing fixes the uppercase 4-hex-digit rendering. -/
theorem strUpper_format04X (n : Nat) : strUpper (format04X n) = format04X n := by
  have h16 : ∀ m : Nat, m % 16 < 16 := fun m => Nat.mod_lt _ (by norm_num)
  show String.mk (List.map Char.toUpper
      [hexDigitU (n / 4096 % 16), hexDigitU (n / 256 % 16),
       hexDigitU (n / 16 % 16), hexDigitU (n % 16)]) = _
  rw [List.map_cons, List.map_cons, List.map_cons, List.map_cons, List.map_nil,
      toUpper_hexDigitU _ (h16 _), toUpper_hexDigitU _ (h16 _),
      toUpper_hexDigitU _ (h16 _), toUpper_hexDigitU _ (h16 _)]
  rfl

/-- Uppercasing sends the lowercase 4-hex-digit rendering to the uppercase
one. -/
theorem strUpper_format04L (n : Nat) : strUpper (format04L n) = format04X n := by
  have h16 : ∀ m : Nat, m % 16 < 16 := fun m => Nat.mod_lt _ (by norm_num)
  show String.mk (List.map Char.toUpper
      [hexDigitL (n / 4096 % 16), hexDigitL (n / 256 % 16),
       hexDigitL (n / 16 % 16), hexDigitL (n % 16)]) = _
  rw [List.map_cons, List.map_cons, List.map_cons, List.map_cons, List.map_nil,
      toUpper_hexDigitL _ (h16 _), toUpper_hexDigitL _ (h16 _),
      toUpper_hexDigitL _ (h16 _), toUpper_hexDigitL _ (h16 _)]
  rfl

/-- Validating a body extended with its own uppercase checksum rendering. -/
theorem validate_append_format04X (body : String) :
    validate_qris (body ++ format04X (crc16ccitt body)) =
      .ok { valid := true,
            provided_crc := format04X (crc16ccitt body),
            calculated_crc := format04X (crc16ccitt body) } := by
  have hhl : (format04X (crc16ccitt body)).length = 4 := rfl
  have hq : 4 ≤ (body ++ format04X (crc16ccitt body)).length := by
    rw [String.length_append, hhl]
    omega
  rw [validate_qris_eq _ hq, lastN_append _ _ hhl, dropLastN_append _ _ hhl,
      strUpper_format04X]
  simp

/-- Validating a body extended with its own lowercase checksum rendering. -/
theorem validate_append_format04L (body : String) :
    validate_qris (body ++ format04L (crc16ccitt body)) =
      .ok { valid := true,
            provided_crc := format04L (crc16ccitt body),
            calculated_crc := format04X (crc16ccitt body) } := by
  have hhl : (format04L (crc16ccitt body)).length = 4 := rfl
  have hq : 4 ≤ (body ++ format04L (crc16ccitt body)).length := by
    rw [String.length_append, hhl]
    omega
  rw [validate_qris_eq _ hq, lastN_append _ _ hhl, dropLastN_append _ _ hhl,
      strUpper_format04L]
  simp

/-- C1: for every input string whose characters all have code points in
0-255, the implemented `crc16ccitt` (unbounded accumulator, one mask at
return) yields the same 16-bit value as the reference CRC-16/CCITT-FALSE
`crc16Ref` that masks the accumulator to 16 bits after every single
shift/XOR. -/
theorem spec_C1_crc_refines_reference (data : String)
    (h : ∀ c ∈ data.data, c.toNat ≤ 255) : crc16ccitt data = crc16Ref data := by
  unfold crc16ccitt crc16Ref
  rw [and_ffff_eq_mod, and_ffff_eq_mod]
  exact foldl_crcChar_congr_ref data.data rfl

/-- Witness for C1 at the concrete ASCII input "00020101". -/
theorem spec_C1_witness :
    (∀ c ∈ ("00020101" : String).data, c.toNat ≤ 255) ∧
      crc16ccitt "00020101" = crc16Ref "00020101" :=
  ⟨by decide, spec_C1_crc_refines_reference "00020101" (by decide)⟩

/-- C2: round-trip — for every non-empty base and integer amount ≥ 1 with at
most 99 decimal digits, validating the finalized payload produced by the
generator yields valid = true, and the validator's computed checksum equals
the checksum hex returned by assembly. -/
theorem spec_C2_roundtrip (base_string : String) (amount : Int)
    (hb : base_string ≠ "") (ha : 1 ≤ amount)
    (hlen : (toString amount).length ≤ 99) :
    ∃ r, generate_qris base_string amount = .ok r ∧
      ∃ v, validate_qris r.qris_string = .ok v ∧ v.valid = true ∧
        v.calculated_crc = r.crc :=
  ⟨_, generate_qris_eq base_string amount hb ha,
    _, validate_append_format04X (stringForCrc base_string amount), rfl, rfl⟩

/-- Witness for C2 at base "A" and amount 1. -/
theorem spec_C2_witness :
    ("A" : String) ≠ "" ∧ 1 ≤ (1 : Int) ∧ (toString (1 : Int)).length ≤ 99 ∧
      ∃ r, generate_qris "A" 1 = .ok r ∧
        ∃ v, validate_qris r.qris_string = .ok v ∧ v.valid = true ∧
          v.calculated_crc = r.crc :=
  ⟨by decide, by decide, by decide, spec_C2_roundtrip "A" 1 (by decide) (by decide) (by decide)⟩

/-- C3: the generator does NOT reject an amount whose decimal representation
exceeds 99 digits; at the 100-digit amount 10^99 it succeeds and silently
emits a 3-character length field "100", contradicting the claimed explicit
rejection (code_bug evidence at the failing input). -/
theorem spec_C3_oversized_amount_not_rejected :
    (toString ((10 : Int) ^ 99)).length = 100 ∧
      zfill 2 (toString (toString ((10 : Int) ^ 99)).length) = "100" ∧
      ∃ r, generate_qris "A" ((10 : Int) ^ 99) = .ok r ∧ r.success = true :=
  ⟨by decide, by decide,
    _, generate_qris_eq "A" ((10 : Int) ^ 99) (by decide) (by decide), rfl⟩

/-- C4: for every non-empty base and integer amount ≥ 1, the finalized
payload equals base ++ "54" ++ zero-filled 2-digit length ++ amount digits
++ "6304" ++ crc, where crc is the uppercase 4-hex rendering of the checksum
of the payload minus its 4 trailing characters; in particular for amount
5000 the amount field is "54045000". -/
theorem spec_C4_payload_structure (base_string : String) (amount : Int)
    (hb : base_string ≠ "") (ha : 1 ≤ amount) :
    ∃ r, generate_qris base_string amount = .ok r ∧
      r.qris_string = base_string ++ "54" ++ zfill 2 (toString (toString amount).length)
        ++ toString amount ++ "6304" ++ r.crc ∧
      r.crc = format04X (crc16ccitt (dropLastN r.qris_string 4)) ∧
      (amount = 5000 → "54" ++ zfill 2 (toString (toString amount).length)
        ++ toString amount = "54045000") := by
  refine ⟨_, generate_qris_eq base_string amount hb ha, ?_, ?_, ?_⟩
  · show stringForCrc base_string amount
        ++ format04X (crc16ccitt (stringForCrc base_string amount)) = _
    unfold stringForCrc
    simp [String.append_assoc]
  · show format04X (crc16ccitt (stringForCrc base_string amount)) =
      format04X (crc16ccitt (dropLastN (stringForCrc base_string amount
        ++ format04X (crc16ccitt (stringForCrc base_string amount))) 4))
    have hhl : (format04X (crc16ccitt (stringForCrc base_string amount))).length = 4 := rfl
    rw [dropLastN_append _ _ hhl]
  · intro h5
    subst h5
    decide

/-- Witness for C4 at base "0" and amount 5000, exhibiting the "54045000"
amount field. -/
theorem spec_C4_witness :
    ("0" : String) ≠ "" ∧ 1 ≤ (5000 : Int) ∧
      ∃ r, generate_qris "0" 5000 = .ok r ∧
        r.qris_string = "0" ++ "54" ++ zfill 2 (toString (toString (5000 : Int)).length)
          ++ toString (5000 : Int) ++ "6304" ++ r.crc ∧
        r.crc = format04X (crc16ccitt (dropLastN r.qris_string 4)) ∧
        ((5000 : Int) = 5000 → "54" ++ zfill 2 (toString (toString (5000 : Int)).length)
          ++ toString (5000 : Int) = "54045000") :=
  ⟨by decide, by decide, spec_C4_payload_structure "0" 5000 (by decide) (by decide)⟩

/-- C5 counterexample: on the lowercase candidate "abcd" the validator echoes
provided_crc = "abcd" as sliced, not the uppercased "ABCD" the claim
requires. -/
theorem spec_C5_counterexample :
    validate_qris "abcd" =
      .ok { valid := false, provided_crc := "abcd", calculated_crc := "FFFF" } ∧
      strUpper (lastN "abcd" 4) = "ABCD" ∧ ("abcd" : String) ≠ "ABCD" :=
  ⟨rfl, by decide, by decide⟩

/-- C5 (amended): for every candidate of length ≥ 4 the validator's returned
provided_crc equals the last 4 characters of the candidate exactly as given
(uppercasing is applied only inside the validity comparison). -/
theorem spec_C5_provided_crc_raw (s : String) (h : 4 ≤ s.length) :
    ∃ r, validate_qris s = .ok r ∧ r.provided_crc = lastN s 4 :=
  ⟨_, validate_qris_eq s h, rfl⟩

/-- Witness for the amended C5 at the concrete candidate "wxyz". -/
theorem spec_C5_witness :
    4 ≤ ("wxyz" : String).length ∧
      ∃ r, validate_qris "wxyz" = .ok r ∧ r.provided_crc = lastN "wxyz" 4 :=
  ⟨by decide, spec_C5_provided_crc_raw "wxyz" (by decide)⟩

/-- C6: for every body, appending the lowercase 4-hex rendering of its
checksum validates successfully, exactly as the uppercase rendering does. -/
theorem spec_C6_case_insensitive (body : String) :
    (∃ v, validate_qris (body ++ format04L (crc16ccitt body)) = .ok v ∧ v.valid = true) ∧
    (∃ v, validate_qris (body ++ format04X (crc16ccitt body)) = .ok v ∧ v.valid = true) :=
  ⟨⟨_, validate_append_format04L body, rfl⟩, ⟨_, validate_append_format04X body, rfl⟩⟩

/-- C7: with a non-empty base, amount 1 is accepted and produces a payload,
while amount 0 and every negative amount are rejected with the client error
"Invalid amount". -/
theorem spec_C7_amount_boundary (base_string : String) (hb : base_string ≠ "") :
    (∃ r, generate_qris base_string 1 = .ok r ∧ r.success = true) ∧
    generate_qris base_string 0 = .error "Invalid amount" ∧
    ∀ amount : Int, amount < 0 → generate_qris base_string amount = .error "Invalid amount" := by
  refine ⟨⟨_, generate_qris_eq base_string 1 hb (by norm_num), rfl⟩, ?_, ?_⟩
  · unfold generate_qris
    rw [if_neg hb, if_pos (Or.inl rfl)]
  · intro amount ha
    unfold generate_qris
    rw [if_neg hb, if_pos (Or.inr (by omega))]

/-- Witness for C7 at base "x", instantiating the negative amount at -5. -/
theorem spec_C7_witness :
    ("x" : String) ≠ "" ∧ (-5 : Int) < 0 ∧
      (∃ r, generate_qris "x" 1 = .ok r ∧ r.success = true) ∧
      generate_qris "x" 0 = .error "Invalid amount" ∧
      generate_qris "x" (-5) = .error "Invalid amount" :=
  ⟨by decide, by decide,
    (spec_C7_amount_boundary "x" (by decide)).1,
    (spec_C7_amount_boundary "x" (by decide)).2.1,
    (spec_C7_amount_boundary "x" (by decide)).2.2 (-5) (by decide)⟩

/-- C8: the checksum of the empty string is 0xFFFF, the unmodified initial
accumulator. -/
theorem spec_C8_empty_checksum : crc16ccitt "" = 0xFFFF := rfl

/-- C9: `crc16ccitt` depends on each character only through its code point
modulo 256 — replacing every character by the character whose code point is
the original one reduced modulo 256 leaves the result unchanged. -/
theorem spec_C9_code_points_mod_256 (data : String) :
    crc16ccitt data =
      crc16ccitt (String.mk (data.data.map (fun c => Char.ofNat (c.toNat % 256)))) := by
  unfold crc16ccitt
  rw [and_ffff_eq_mod, and_ffff_eq_mod]
  exact foldl_crcChar_map_mod data.data rfl

/-- C10: on a candidate of length exactly 4 the validator checksums the empty
body, so the result is valid exactly when the uppercased candidate is
"FFFF". -/
theorem spec_C10_length_four_validation (s : String) (h : s.length = 4) :
    ∃ r, validate_qris s = .ok r ∧ (r.valid = true ↔ strUpper s = "FFFF") := by
  refine ⟨_, validate_qris_eq s (by omega), ?_⟩
  rw [lastN_of_length_four s h, dropLastN_of_length_four s h]
  show decide (strUpper s = format04X (crc16ccitt "")) = true ↔ _
  rw [show format04X (crc16ccitt "") = "FFFF" from rfl]
  exact decide_eq_true_iff

/-- Witness for C10 at the concrete candidate "ffff". -/
theorem spec_C10_witness :
    ("ffff" : String).length = 4 ∧
      ∃ r, validate_qris "ffff" = .ok r ∧ (r.valid = true ↔ strUpper "ffff" = "FFFF") :=
  ⟨by decide, spec_C10_length_four_validation "ffff" (by decide)⟩
